import Mathlib

/-!
Verification of the table/figure extraction-classification-synthesis pipeline of
`internal/tools/docprocessing/python/` (docling_processor.py, table_processing.py).

Python strings are modelled as Lean `String` (a wrapper around `List Char`),
Python floats that arise from decimal literals as `ℚ`, and dictionaries with a
fixed key set as structures.  External collaborators (HTTP vision service, OCR
models, file system, PIL image decoding) are modelled as oracle parameters, and
only at the exact call sites where the source calls out of the subsystem.
-/

set_option maxRecDepth 16384

namespace DocProc

/-- Characters treated as whitespace by Python `str.strip` and the regex class \s. -/
def pyIsSpace (c : Char) : Bool :=
  c = ' ' || c = '\t' || c = '\n' || c = '\r' || c = '\x0b' || c = '\x0c'

/-- Python `str.strip()` on a list of characters: drop whitespace at both ends. -/
def stripL (cs : List Char) : List Char :=
  (cs.dropWhile pyIsSpace).rdropWhile pyIsSpace

/-- Python `str.strip()`. -/
def pyStrip (s : String) : String := ⟨stripL s.data⟩

/-- Python `str.lower()` (ASCII case folding). -/
def pyLower (s : String) : String := ⟨s.data.map Char.toLower⟩

/-- Python `str.split(sep)` for a one-character separator, over character lists. -/
def splitChar (sep : Char) : List Char → List (List Char)
  | [] => [[]]
  | c :: cs =>
    match splitChar sep cs with
    | [] => [[c]]
    | r :: rs => if c = sep then [] :: r :: rs else (c :: r) :: rs

/-- Python `s.split(chr(10))`, the line split used throughout the source. -/
def pySplitLines (s : String) : List String := (splitChar '\n' s.data).map (fun l => ⟨l⟩)

/-- Python substring test `pat in hay`. -/
def strContains (hay pat : String) : Bool :=
  hay.data.tails.any (fun t => pat.data.isPrefixOf t)

/-- Python `s.startswith(pre)`. -/
def strStartsWith (s pre : String) : Bool := pre.data.isPrefixOf s.data

/-- Python `s.count(c)` for a single character. -/
def countChar (c : Char) (s : String) : Nat := s.data.count c

/-- Fuel-driven worker for `replaceL`; the fuel bounds the input length, so
recursion is structural and kernel-reducible. -/
def replaceGo (pat repl : List Char) : Nat → List Char → List Char
  | 0, cs => cs
  | _ + 1, [] => []
  | fuel + 1, c :: cs =>
    if pat.isPrefixOf (c :: cs) && !pat.isEmpty then
      repl ++ replaceGo pat repl fuel ((c :: cs).drop pat.length)
    else
      c :: replaceGo pat repl fuel cs

/-- Replace every non-overlapping occurrence of `pat` (left to right), as Python
`str.replace`.  An empty pattern leaves the list unchanged (a case the source
never exercises). -/
def replaceL (pat repl : List Char) (cs : List Char) : List Char :=
  replaceGo pat repl cs.length cs

/-- Python `s.replace(pat, repl)`. -/
def pyReplace (s pat repl : String) : String := ⟨replaceL pat.data repl.data s.data⟩

/-- A single-quote character as a string (used by the HTML escaper). -/
def sq : String := ⟨[Char.ofNat 39]⟩

/-! ## Table Renderer (table_processing.py lines 171-278, duplicated at
docling_processor.py lines 752-843; the two copies are textually identical). -/

/-- The row padding expression shared by the three renderers:
`row + [""] * (len(headers) - len(row)) if headers else row`.
Python multiplies a list by a negative count to the empty list, exactly as
truncated `Nat` subtraction does here, so a row longer than `headers` is kept
whole. -/
def padRow (headers row : List String) : List String :=
  if headers.isEmpty then row else row ++ List.replicate (headers.length - row.length) ""

/-- One pipe-delimited markdown table line built from a list of cells. -/
def mdRowLine (cells : List String) : String :=
  "| " ++ String.intercalate " | " cells ++ " |"

/-- The `lines` list built by `generate_table_markdown` before joining. -/
def markdownLines (headers : List String) (rows : List (List String)) : List String :=
  (if headers.isEmpty then []
   else [mdRowLine headers, mdRowLine (List.replicate headers.length "---")])
  ++ rows.map (fun row => mdRowLine (padRow headers row))

/-- Embedding of `generate_table_markdown` (table_processing.py lines 171-194). -/
def generate_table_markdown (headers : List String) (rows : List (List String)) : String :=
  if headers.isEmpty && rows.isEmpty then ""
  else String.intercalate "\n" (markdownLines headers rows)

/-- Python `csv` QUOTE_MINIMAL: a field is quoted when it contains the
delimiter, the quote character or a line-terminator character. -/
def csvNeedsQuote (s : String) : Bool :=
  strContains s "," || strContains s "\"" || strContains s "\r" || strContains s "\n"

/-- One CSV field under minimal quoting, doubling interior quotes. -/
def csvField (s : String) : String :=
  if csvNeedsQuote s then "\"" ++ pyReplace s "\"" "\"\"" ++ "\"" else s

/-- One CSV record as written by `csv.writer.writerow` (default dialect,
lineterminator CRLF). -/
def csvLine (cells : List String) : String :=
  String.intercalate "," (cells.map csvField) ++ "\r\n"

/-- The sequence of records written by `generate_table_csv` before the final
strip. -/
def csvRowStrings (headers : List String) (rows : List (List String)) : List String :=
  (if headers.isEmpty then [] else [csvLine headers])
  ++ rows.map (fun row => csvLine (padRow headers row))

/-- Embedding of `generate_table_csv` (table_processing.py lines 197-223). -/
def generate_table_csv (headers : List String) (rows : List (List String)) : String :=
  if headers.isEmpty && rows.isEmpty then ""
  else pyStrip (String.join (csvRowStrings headers rows))

/-- Embedding of `escape_html` (table_processing.py lines 268-278). -/
def escape_html (s : String) : String :=
  pyReplace (pyReplace (pyReplace (pyReplace (pyReplace s
    "&" "&amp;") "<" "&lt;") ">" "&gt;") "\"" "&quot;") sq "&#x27;"

/-- The `html_parts` entries contributed by one data row. -/
def htmlRowLines (headers row : List String) : List String :=
  ["    <tr>"]
  ++ (padRow headers row).map (fun cell => "      <td>" ++ escape_html cell ++ "</td>")
  ++ ["    </tr>"]

/-- The `html_parts` list built by `generate_table_html` before joining. -/
def htmlParts (headers : List String) (rows : List (List String)) (caption : String) :
    List String :=
  ["<table>"]
  ++ (if caption = "" then [] else ["  <caption>" ++ escape_html caption ++ "</caption>"])
  ++ (if headers.isEmpty then []
      else ["  <thead>", "    <tr>"]
        ++ headers.map (fun h => "      <th>" ++ escape_html h ++ "</th>")
        ++ ["    </tr>", "  </thead>"])
  ++ (if rows.isEmpty then []
      else ["  <tbody>"] ++ rows.flatMap (htmlRowLines headers) ++ ["  </tbody>"])
  ++ ["</table>"]

/-- Embedding of `generate_table_html` (table_processing.py lines 226-265). -/
def generate_table_html (headers : List String) (rows : List (List String))
    (caption : String) : String :=
  if headers.isEmpty && rows.isEmpty then ""
  else String.intercalate "\n" (htmlParts headers rows caption)

/-- C1: the claim asserts rows longer than the header count are truncated and
that for headers ["A","B"], rows [["1"],["2","3","4"]] the second markdown data
row is rendered as the two-cell row.  The code pads short rows but never
truncates: the second data row keeps all three cells, refuting the claim at
its own concrete input. -/
theorem c1_counterexample :
    pySplitLines (generate_table_markdown ["A", "B"] [["1"], ["2", "3", "4"]]) =
      ["| A | B |", "| --- | --- |", "| 1 |  |", "| 2 | 3 | 4 |"] ∧
    ("| 2 | 3 | 4 |" : String) ≠ "| 2 | 3 |" ∧
    (padRow ["A", "B"] ["2", "3", "4"]).length ≠ 2 := by
  refine ⟨by decide, by decide, by decide⟩

/-- C1 (amended): with non-empty headers every data row is rendered from the
padded row, whose cell count is `max len(headers) len(row)`: shorter rows are
padded with empty strings and longer rows are emitted in full, in all three
renderers. -/
theorem c1_row_padding (headers : List String) (rows : List (List String))
    (row : List String) (caption : String) (hh : headers ≠ []) (hr : row ∈ rows) :
    (padRow headers row).length = max headers.length row.length ∧
    mdRowLine (padRow headers row) ∈ markdownLines headers rows ∧
    csvLine (padRow headers row) ∈ csvRowStrings headers rows ∧
    (∃ pre, htmlParts headers rows caption =
      pre ++ "  <tbody>" ::
        (rows.flatMap (htmlRowLines headers) ++ ["  </tbody>", "</table>"])) ∧
    (htmlRowLines headers row).length = (padRow headers row).length + 2 := by
  have hhe : headers.isEmpty = false := by
    cases headers with
    | nil => exact absurd rfl hh
    | cons a l => rfl
  have hre : rows.isEmpty = false := by
    cases rows with
    | nil => exact absurd hr (List.not_mem_nil row)
    | cons a l => rfl
  refine ⟨?_, ?_, ?_, ?_, ?_⟩
  · simp only [padRow, hhe, Bool.false_eq_true, if_false, List.length_append,
      List.length_replicate]
    omega
  · exact List.mem_append.mpr (Or.inr (List.mem_map_of_mem _ hr))
  · exact List.mem_append.mpr (Or.inr (List.mem_map_of_mem _ hr))
  · refine ⟨["<table>"]
      ++ (if caption = "" then [] else ["  <caption>" ++ escape_html caption ++ "</caption>"])
      ++ (["  <thead>", "    <tr>"]
        ++ headers.map (fun h => "      <th>" ++ escape_html h ++ "</th>")
        ++ ["    </tr>", "  </thead>"]), ?_⟩
    simp [htmlParts, hhe, hre]
  · simp [htmlRowLines]

/-- Witness for `c1_row_padding`: its hypotheses hold at the claim's concrete
table, and the padded long row has three cells. -/
theorem c1_row_padding_witness :
    (["A", "B"] : List String) ≠ [] ∧
    (["2", "3", "4"] : List String) ∈ [["1"], ["2", "3", "4"]] ∧
    (padRow ["A", "B"] ["2", "3", "4"]).length = max 2 3 :=
  ⟨by decide, by decide,
    (c1_row_padding ["A", "B"] [["1"], ["2", "3", "4"]] ["2", "3", "4"] ""
      (by decide) (by decide)).1⟩

/-! ## Figure Classifier: `classify_diagram_vs_screenshot`
(docling_processor.py lines 2416-2472). -/

/-- Diagram-indicator keywords (lines 2436-2440). -/
def diagram_keywords : List String :=
  ["architecture", "overview", "flow", "diagram", "pipeline", "infrastructure",
   "flowchart", "process", "workflow", "system", "component", "service",
   "database", "api", "network", "sequence", "relationship", "structure"]

/-- Screenshot-indicator keywords (lines 2443-2447). -/
def screenshot_keywords : List String :=
  ["screenshot", "terminal", "console", "ui", "interface", "browser",
   "window", "desktop", "menu", "button", "form", "dialog", "popup",
   "configuration", "settings", "dashboard", "output", "result"]

/-- Count of keywords occurring as substrings of the text
(`sum(1 for keyword in keywords if keyword in text_content)`). -/
def countMatches (keywords : List String) (text : String) : Nat :=
  (keywords.filter (fun k => strContains text k)).length

/-- The fields of a diagram record consulted by the classifier; `elements`
holds the `content` entries of the element dictionaries. -/
structure DiagramInfo where
  diagram_type : String := ""
  description : String := ""
  caption : String := ""
  elements : List String := []

/-- The `text_content` string assembled at lines 2420-2433: an f-string of the
lower-cased type, description and caption, lower-cased again, then a space and
the space-joined lower-cased element contents. -/
def classificationText (d : DiagramInfo) : String :=
  pyLower (pyLower d.diagram_type ++ " " ++ pyLower d.description ++ " " ++ pyLower d.caption)
    ++ " " ++ String.intercalate " " (d.elements.map pyLower)

/-- The `diagram_score` of line 2450. -/
def diagramScore (d : DiagramInfo) : Nat :=
  countMatches diagram_keywords (classificationText d)

/-- The `screenshot_score` of line 2451. -/
def screenshotScore (d : DiagramInfo) : Nat :=
  countMatches screenshot_keywords (classificationText d)

/-- The decision block of `classify_diagram_vs_screenshot` (lines 2453-2468),
as a function of the two scores and the lower-cased `diagram_type`. -/
def classify_from_scores (diagram_score screenshot_score : Nat)
    (diagram_type : String) : Bool × ℚ :=
  if screenshot_score < diagram_score then
    (true, min (9/10) (7/10 + ((diagram_score : ℚ) - (screenshot_score : ℚ)) * (1/10)))
  else if diagram_score < screenshot_score then
    (false, min (9/10) (7/10 + ((screenshot_score : ℚ) - (diagram_score : ℚ)) * (1/10)))
  else if diagram_type ∈ (["flowchart", "architecture", "diagram", "chart"] : List String) then
    (true, 7/10)
  else if diagram_type ∈ (["screenshot", "interface", "ui"] : List String) then
    (false, 7/10)
  else
    (true, 6/10)

/-- Embedding of `classify_diagram_vs_screenshot` (lines 2416-2472): returns
`(is_diagram, confidence)`. -/
def classify_diagram_vs_screenshot (d : DiagramInfo) : Bool × ℚ :=
  classify_from_scores (diagramScore d) (screenshotScore d) (pyLower d.diagram_type)

/-- Unfolding lemma: a strictly larger diagram score classifies convertible. -/
theorem classify_from_scores_of_gt {d s : Nat} (t : String) (h : s < d) :
    classify_from_scores d s t =
      (true, min (9/10) (7/10 + ((d : ℚ) - (s : ℚ)) * (1/10))) := by
  simp [classify_from_scores, h]

/-- Unfolding lemma: a strictly larger screenshot score classifies not
convertible. -/
theorem classify_from_scores_of_lt {d s : Nat} (t : String) (h : d < s) :
    classify_from_scores d s t =
      (false, min (9/10) (7/10 + ((s : ℚ) - (d : ℚ)) * (1/10))) := by
  have h' : ¬ s < d := by omega
  simp [classify_from_scores, h, h']

/-- C3: the convertibility classifier compares keyword-match counts over the
combined type/description/caption/element text; a strict winner decides the
class with confidence `min 0.9 (0.7 + 0.1 * |score difference|)`, and ties fall
back to the (lower-cased) diagram type: convertible at 0.7 for
flowchart/architecture/diagram/chart, not convertible at 0.7 for
screenshot/interface/ui, convertible at 0.6 otherwise. -/
theorem c3_classifier_behaviour (d : DiagramInfo) :
    (screenshotScore d < diagramScore d →
      classify_diagram_vs_screenshot d =
        (true, min (9/10)
          (7/10 + |(diagramScore d : ℚ) - (screenshotScore d : ℚ)| * (1/10)))) ∧
    (diagramScore d < screenshotScore d →
      classify_diagram_vs_screenshot d =
        (false, min (9/10)
          (7/10 + |(diagramScore d : ℚ) - (screenshotScore d : ℚ)| * (1/10)))) ∧
    (diagramScore d = screenshotScore d →
      pyLower d.diagram_type ∈ (["flowchart", "architecture", "diagram", "chart"] : List String) →
      classify_diagram_vs_screenshot d = (true, 7/10)) ∧
    (diagramScore d = screenshotScore d →
      pyLower d.diagram_type ∈ (["screenshot", "interface", "ui"] : List String) →
      classify_diagram_vs_screenshot d = (false, 7/10)) ∧
    (diagramScore d = screenshotScore d →
      pyLower d.diagram_type ∉ (["flowchart", "architecture", "diagram", "chart"] : List String) →
      pyLower d.diagram_type ∉ (["screenshot", "interface", "ui"] : List String) →
      classify_diagram_vs_screenshot d = (true, 6/10)) := by
  refine ⟨?_, ?_, ?_, ?_, ?_⟩
  · intro h
    rw [classify_diagram_vs_screenshot, classify_from_scores_of_gt _ h]
    have : |(diagramScore d : ℚ) - (screenshotScore d : ℚ)| =
        (diagramScore d : ℚ) - (screenshotScore d : ℚ) := by
      rw [abs_of_pos]
      rw [sub_pos]
      exact_mod_cast h
    rw [this]
  · intro h
    rw [classify_diagram_vs_screenshot, classify_from_scores_of_lt _ h]
    have : |(diagramScore d : ℚ) - (screenshotScore d : ℚ)| =
        (screenshotScore d : ℚ) - (diagramScore d : ℚ) := by
      rw [abs_sub_comm, abs_of_pos]
      rw [sub_pos]
      exact_mod_cast h
    rw [this]
  · intro h hm
    have h1 : ¬ screenshotScore d < diagramScore d := by omega
    have h2 : ¬ diagramScore d < screenshotScore d := by omega
    simp [classify_diagram_vs_screenshot, classify_from_scores, h1, h2, hm]
  · intro h hm
    have h1 : ¬ screenshotScore d < diagramScore d := by omega
    have h2 : ¬ diagramScore d < screenshotScore d := by omega
    have hnot : pyLower d.diagram_type ∉
        (["flowchart", "architecture", "diagram", "chart"] : List String) := by
      simp only [List.mem_cons, List.not_mem_nil, or_false] at hm
      rcases hm with h' | h' | h' <;> rw [h'] <;> decide
    simp [classify_diagram_vs_screenshot, classify_from_scores, h1, h2, hnot, hm]
  · intro h hm1 hm2
    have h1 : ¬ screenshotScore d < diagramScore d := by omega
    have h2 : ¬ diagramScore d < screenshotScore d := by omega
    simp [classify_diagram_vs_screenshot, classify_from_scores, h1, h2, hm1, hm2]

/-- Witness for `c3_classifier_behaviour`: a record whose type mentions
architecture has diagram score 1 and screenshot score 0, and is classified
convertible at confidence 0.8. -/
theorem c3_classifier_behaviour_witness :
    screenshotScore ⟨"architecture", "", "", []⟩ < diagramScore ⟨"architecture", "", "", []⟩ ∧
    classify_diagram_vs_screenshot ⟨"architecture", "", "", []⟩ =
      (true, min (9/10)
        (7/10 + |(diagramScore ⟨"architecture", "", "", []⟩ : ℚ) -
          (screenshotScore ⟨"architecture", "", "", []⟩ : ℚ)| * (1/10))) :=
  ⟨by decide, (c3_classifier_behaviour ⟨"architecture", "", "", []⟩).1 (by decide)⟩

/-- Confidence with which an input is classified convertible: the returned
confidence when `is_diagram` is true, and zero otherwise. -/
def convConf (r : Bool × ℚ) : ℚ := if r.1 then r.2 else 0

/-- The classifier's convertible-confidence is never negative. -/
theorem convConf_classify_nonneg (d s : Nat) (t : String) :
    0 ≤ convConf (classify_from_scores d s t) := by
  rcases Nat.lt_trichotomy s d with h | h | h
  · rw [classify_from_scores_of_gt t h, convConf]
    have h1 : (1 : ℚ) ≤ (d : ℚ) - (s : ℚ) := by
      have : (s : ℚ) + 1 ≤ (d : ℚ) := by exact_mod_cast h
      linarith
    simp only [if_pos rfl]
    have : (0 : ℚ) ≤ 7/10 + ((d : ℚ) - (s : ℚ)) * (1/10) := by nlinarith
    exact le_min (by norm_num) this
  · subst h
    unfold classify_from_scores
    simp only [lt_irrefl, if_false]
    split
    · norm_num [convConf]
    · split
      · norm_num [convConf]
      · norm_num [convConf]
  · rw [classify_from_scores_of_lt t h]
    norm_num [convConf]

/-- C8: holding the screenshot score fixed, a larger diagram score never turns
a convertible classification into a non-convertible one, and never decreases
the convertible-confidence. -/
theorem c8_monotonicity (s d₁ d₂ : Nat) (t : String) (h : d₁ ≤ d₂) :
    ((classify_from_scores d₁ s t).1 = true → (classify_from_scores d₂ s t).1 = true) ∧
    convConf (classify_from_scores d₁ s t) ≤ convConf (classify_from_scores d₂ s t) := by
  rcases Nat.lt_trichotomy s d₁ with h1 | h1 | h1
  · have h2 : s < d₂ := by omega
    rw [classify_from_scores_of_gt t h1, classify_from_scores_of_gt t h2]
    refine ⟨fun _ => rfl, ?_⟩
    simp only [convConf, if_pos rfl]
    refine min_le_min (le_refl _) ?_
    have : (d₁ : ℚ) ≤ (d₂ : ℚ) := by exact_mod_cast h
    nlinarith
  · subst h1
    rcases Nat.eq_or_lt_of_le h with h2 | h2
    · subst h2
      exact ⟨fun hx => hx, le_refl _⟩
    · rw [classify_from_scores_of_gt t h2]
      constructor
      · intro _; rfl
      · have hconf : (4/5 : ℚ) ≤ min (9/10) (7/10 + ((d₂ : ℚ) - (s : ℚ)) * (1/10)) := by
          have h1 : (1 : ℚ) ≤ (d₂ : ℚ) - (s : ℚ) := by
            have : (s : ℚ) + 1 ≤ (d₂ : ℚ) := by exact_mod_cast h2
            linarith
          refine le_min (by norm_num) (by nlinarith)
        have hsmall : convConf (classify_from_scores s s t) ≤ 4/5 := by
          unfold classify_from_scores
          simp only [lt_irrefl, if_false]
          split
          · norm_num [convConf]
          · split
            · norm_num [convConf]
            · norm_num [convConf]
        calc convConf (classify_from_scores s s t) ≤ 4/5 := hsmall
          _ ≤ _ := by simpa [convConf] using hconf
  · have hx : (classify_from_scores d₁ s t).1 = false := by
      rw [classify_from_scores_of_lt t h1]
    constructor
    · intro hc
      rw [hx] at hc
      exact absurd hc (by decide)
    · have : convConf (classify_from_scores d₁ s t) = 0 := by
        rw [classify_from_scores_of_lt t h1]
        simp [convConf]
      rw [this]
      exact convConf_classify_nonneg d₂ s t

/-- Witness for `c8_monotonicity`: from a tied score 0 to diagram score 1 the
convertible-confidence rises (0.6 to 0.8), not falls. -/
theorem c8_monotonicity_witness :
    (0 : Nat) ≤ 1 ∧
    convConf (classify_from_scores 0 0 "") ≤ convConf (classify_from_scores 1 0 "") :=
  ⟨by decide, (c8_monotonicity 0 0 1 "" (by decide)).2⟩

/-! ## Mermaid Validator: `validate_mermaid_syntax`
(docling_processor.py lines 2750-2789). -/

/-- Valid first-line diagram keywords (line 2762); each is compared after
lower-casing both sides. -/
def valid_types : List String :=
  ["graph", "flowchart", "sequencediagram", "classDiagram", "stateDiagram", "erDiagram"]

/-- Node or edge marker test of line 2781. -/
def hasNodeMarker (line : String) : Bool :=
  (["[", "(", "\x7b", "-->", "---"] : List String).any (fun m => strContains line m)

/-- The per-line test of the node-definition loop (lines 2777-2783): the line
is stripped, and blank, `classDef`- and `class `-lines are passed over. -/
def markerLineTest (l : String) : Bool :=
  decide (pyStrip l ≠ "") && !(strStartsWith (pyStrip l) "classDef") &&
    !(strStartsWith (pyStrip l) "class ") && hasNodeMarker (pyStrip l)

/-- Embedding of `validate_mermaid_syntax` (lines 2750-2789). -/
def validate_mermaid_syntax (mermaid_code : String) : Bool :=
  if pyStrip mermaid_code = "" then false
  else
    match pySplitLines (pyStrip mermaid_code) with
    | [] => false
    | first :: rest =>
      if !(valid_types.any (fun t => strStartsWith (pyLower (pyStrip first)) (pyLower t))) then
        false
      else if countChar '[' mermaid_code ≠ countChar ']' mermaid_code ∨
          countChar '(' mermaid_code ≠ countChar ')' mermaid_code ∨
          countChar '\x7b' mermaid_code ≠ countChar '\x7d' mermaid_code then
        false
      else
        rest.any markerLineTest

/-- Lines of the string, each stripped, with blank lines removed: the claim's
sequence of non-blank lines. -/
def strippedLines (s : String) : List String :=
  ((pySplitLines s).map pyStrip).filter (fun l => decide (l ≠ ""))

/-- C6 claim-side acceptance conditions, phrased as the claim states them:
non-empty after stripping, first non-blank line starts case-insensitively with
a diagram keyword, the three bracket kinds balance over the whole source, and
some line beyond the first that is not a classDef/class line carries a node or
edge marker. -/
def claimValidatorAccepts (code : String) : Prop :=
  match strippedLines code with
  | [] => False
  | first :: rest =>
      (∃ t ∈ valid_types, strStartsWith (pyLower first) (pyLower t) = true) ∧
      countChar '[' code = countChar ']' code ∧
      countChar '(' code = countChar ')' code ∧
      countChar '\x7b' code = countChar '\x7d' code ∧
      ∃ l ∈ rest, strStartsWith l "classDef" = false ∧ strStartsWith l "class " = false ∧
        hasNodeMarker l = true

/-! Supporting lemmas relating line splitting and stripping. -/

/-- Splitting never produces the empty list of components. -/
theorem splitChar_ne_nil (sep : Char) (cs : List Char) : splitChar sep cs ≠ [] := by
  induction cs with
  | nil => simp [splitChar]
  | cons c cs ih =>
    rcases h : splitChar sep cs with _ | ⟨r, rs⟩
    · exact absurd h ih
    · simp only [splitChar, h]
      split <;> simp

/-- The first component of a split is the prefix up to the first separator. -/
theorem splitChar_head (sep : Char) (cs : List Char) :
    ∃ ls, splitChar sep cs = cs.takeWhile (fun c => decide (c ≠ sep)) :: ls := by
  induction cs with
  | nil => exact ⟨[], rfl⟩
  | cons c cs ih =>
    obtain ⟨ls, hls⟩ := ih
    by_cases hc : c = sep
    · refine ⟨cs.takeWhile (fun c => decide (c ≠ sep)) :: ls, ?_⟩
      simp [splitChar, hls, hc]
    · refine ⟨ls, ?_⟩
      simp [splitChar, hls, hc]

/-- Characters of any component of a split are characters of the input. -/
theorem mem_of_mem_splitChar {sep : Char} {cs l : List Char} {x : Char}
    (hl : l ∈ splitChar sep cs) (hx : x ∈ l) : x ∈ cs := by
  induction cs generalizing l with
  | nil =>
    simp only [splitChar, List.mem_singleton] at hl
    subst hl
    simp at hx
  | cons c cs ih =>
    rcases h : splitChar sep cs with _ | ⟨r, rs⟩
    · exact absurd h (splitChar_ne_nil sep cs)
    · simp only [splitChar, h] at hl
      by_cases hc : c = sep
      · rw [if_pos hc] at hl
        rcases List.mem_cons.mp hl with h1 | h1
        · subst h1; simp at hx
        · exact List.mem_cons_of_mem c (ih (h ▸ h1) hx)
      · rw [if_neg hc] at hl
        rcases List.mem_cons.mp hl with h1 | h1
        · subst h1
          rcases List.mem_cons.mp hx with h2 | h2
          · subst h2; exact List.mem_cons_self x cs
          · exact List.mem_cons_of_mem c (ih (h ▸ List.mem_cons_self r rs) h2)
        · exact List.mem_cons_of_mem c (ih (h ▸ List.mem_cons_of_mem r h1) hx)

/-- Every non-separator character of the input lands in some component. -/
theorem mem_splitChar_of_mem {sep x : Char} {cs : List Char}
    (hx : x ∈ cs) (hne : x ≠ sep) : ∃ l ∈ splitChar sep cs, x ∈ l := by
  induction cs with
  | nil => simp at hx
  | cons c cs ih =>
    rcases h : splitChar sep cs with _ | ⟨r, rs⟩
    · exact absurd h (splitChar_ne_nil sep cs)
    · by_cases hc : c = sep
      · have hxc : x ∈ cs := by
          rcases List.mem_cons.mp hx with h1 | h1
          · exact absurd (h1.trans hc) hne
          · exact h1
        obtain ⟨l, hl, hxl⟩ := ih hxc
        exact ⟨l, by simp only [splitChar, h, if_pos hc]
                     exact List.mem_cons_of_mem _ (h ▸ hl), hxl⟩
      · rcases List.mem_cons.mp hx with h1 | h1
        · refine ⟨c :: r, ?_, by simp [h1]⟩
          simp [splitChar, h, hc]
        · obtain ⟨l, hl, hxl⟩ := ih h1
          rw [h] at hl
          rcases List.mem_cons.mp hl with h2 | h2
          · subst h2
            refine ⟨c :: l, ?_, List.mem_cons_of_mem c hxl⟩
            simp [splitChar, h, hc]
          · refine ⟨l, ?_, hxl⟩
            simp only [splitChar, h, if_neg hc]
            exact List.mem_cons_of_mem _ h2

/-- A string strips to nothing exactly when all its characters are whitespace. -/
theorem stripL_eq_nil_iff {cs : List Char} :
    stripL cs = [] ↔ ∀ x ∈ cs, pyIsSpace x := by
  unfold stripL
  rw [List.rdropWhile_eq_nil_iff]
  constructor
  · intro h x hx
    rw [← List.takeWhile_append_dropWhile pyIsSpace cs] at hx
    rcases List.mem_append.mp hx with h1 | h1
    · exact List.mem_takeWhile_imp h1
    · exact h x h1
  · intro h x hx
    exact h x ((List.dropWhile_suffix pyIsSpace).subset hx)

/-- The stripped non-blank components of a split over character lists. -/
def SLc (cs : List Char) : List (List Char) :=
  ((splitChar '\n' cs).map stripL).filter (fun l => decide (l ≠ []))

/-- The non-blank-line list is empty exactly when the text is all whitespace. -/
theorem SLc_eq_nil_iff {cs : List Char} :
    SLc cs = [] ↔ ∀ x ∈ cs, pyIsSpace x := by
  unfold SLc
  rw [List.filter_eq_nil_iff]
  constructor
  · intro h x hx
    by_cases hnl : x = '\n'
    · subst hnl; decide
    · obtain ⟨l, hl, hxl⟩ := mem_splitChar_of_mem hx hnl
      have h2 := h (stripL l) (List.mem_map_of_mem stripL hl)
      simp only [decide_eq_true_eq, not_not] at h2
      exact stripL_eq_nil_iff.mp h2 x hxl
  · intro h l hl
    simp only [List.mem_map] at hl
    obtain ⟨l₀, hl₀, rfl⟩ := hl
    have hall : ∀ x ∈ l₀, pyIsSpace x := fun x hx => h x (mem_of_mem_splitChar hl₀ hx)
    simp [stripL_eq_nil_iff.mpr hall]

/-- Stripping ignores a leading whitespace character. -/
theorem stripL_cons_ws {c : Char} (h : pyIsSpace c = true) (l : List Char) :
    stripL (c :: l) = stripL l := by
  unfold stripL
  rw [List.dropWhile_cons_of_pos h]

/-- Stripping ignores a trailing whitespace character. -/
theorem stripL_append_ws {c : Char} (h : pyIsSpace c = true) (l : List Char) :
    stripL (l ++ [c]) = stripL l := by
  unfold stripL
  rw [List.dropWhile_append]
  by_cases he : (l.dropWhile pyIsSpace).isEmpty
  · rw [if_pos he]
    have h1 : List.dropWhile pyIsSpace [c] = [] := by
      rw [List.dropWhile_cons_of_pos h]; rfl
    rw [h1]
    rw [List.isEmpty_iff] at he
    rw [he]
  · rw [if_neg he]
    exact List.rdropWhile_concat_pos pyIsSpace _ c h

/-- Apply a function to the last element of a list of lists. -/
def modLast (f : List Char → List Char) : List (List Char) → List (List Char)
  | [] => []
  | [a] => [f a]
  | a :: b :: rest => a :: modLast f (b :: rest)

/-- How splitting treats one appended character. -/
theorem splitChar_append_single (sep c : Char) (cs : List Char) :
    splitChar sep (cs ++ [c]) =
      if c = sep then splitChar sep cs ++ [[]]
      else modLast (fun x => x ++ [c]) (splitChar sep cs) := by
  induction cs with
  | nil => by_cases h : c = sep <;> simp [splitChar, h, modLast]
  | cons a cs ih =>
    obtain ⟨r, rs, hr⟩ : ∃ r rs, splitChar sep cs = r :: rs := by
      rcases h : splitChar sep cs with _ | ⟨r, rs⟩
      · exact absurd h (splitChar_ne_nil sep cs)
      · exact ⟨r, rs, rfl⟩
    by_cases hc : c = sep
    · rw [if_pos hc] at ih ⊢
      rw [List.cons_append]
      simp only [splitChar, ih, hr]
      by_cases ha : a = sep <;> simp [ha]
    · rw [if_neg hc] at ih ⊢
      rw [List.cons_append]
      simp only [splitChar, ih, hr]
      cases rs with
      | nil => by_cases ha : a = sep <;> simp [ha, modLast]
      | cons r2 rs2 => by_cases ha : a = sep <;> simp [ha, modLast]

/-- Stripping is blind to a whitespace character appended to the last
component. -/
theorem map_stripL_modLast {c : Char} (h : pyIsSpace c = true) (L : List (List Char)) :
    (modLast (fun x => x ++ [c]) L).map stripL = L.map stripL := by
  induction L with
  | nil => rfl
  | cons a L ih =>
    cases L with
    | nil => simp [modLast, stripL_append_ws h]
    | cons b L2 =>
      simp only [modLast, List.map_cons] at ih ⊢
      rw [ih]

/-- A trailing whitespace character does not change the non-blank lines. -/
theorem SLc_append_ws {c : Char} (h : pyIsSpace c = true) (cs : List Char) :
    SLc (cs ++ [c]) = SLc cs := by
  unfold SLc
  rw [splitChar_append_single]
  by_cases hc : c = '\n'
  · rw [if_pos hc]
    simp [List.filter_append, stripL]
  · rw [if_neg hc, map_stripL_modLast h]

/-- Leading whitespace does not change the non-blank lines. -/
theorem SLc_dropWhile (cs : List Char) : SLc (cs.dropWhile pyIsSpace) = SLc cs := by
  induction cs with
  | nil => rfl
  | cons a cs ih =>
    by_cases h : pyIsSpace a
    · rw [List.dropWhile_cons_of_pos h, ih]
      obtain ⟨r, rs, hr⟩ : ∃ r rs, splitChar '\n' cs = r :: rs := by
        rcases hx : splitChar '\n' cs with _ | ⟨r, rs⟩
        · exact absurd hx (splitChar_ne_nil '\n' cs)
        · exact ⟨r, rs, rfl⟩
      by_cases hn : a = '\n'
      · subst hn
        unfold SLc
        simp [splitChar, hr, stripL]
      · unfold SLc
        simp [splitChar, hr, hn, stripL_cons_ws h]
    · rw [List.dropWhile_cons_of_neg h]

/-- Trailing whitespace does not change the non-blank lines. -/
theorem SLc_rdropWhile (cs : List Char) : SLc (cs.rdropWhile pyIsSpace) = SLc cs := by
  induction cs using List.reverseRecOn with
  | nil => simp [List.rdropWhile_nil]
  | append_singleton l x ih =>
    by_cases h : pyIsSpace x
    · rw [List.rdropWhile_concat_pos pyIsSpace l x h, ih, SLc_append_ws h]
    · rw [List.rdropWhile_concat_neg pyIsSpace l x h]

/-- Stripping the whole text does not change its non-blank lines. -/
theorem SLc_stripL (cs : List Char) : SLc (stripL cs) = SLc cs := by
  unfold stripL
  rw [SLc_rdropWhile, SLc_dropWhile]

/-- The head of a non-empty dropWhile result falsifies the predicate. -/
theorem dropWhile_head_false {p : Char → Bool} {cs : List Char} {e : Char} {es : List Char}
    (h : cs.dropWhile p = e :: es) : p e = false := by
  induction cs with
  | nil => simp [List.dropWhile] at h
  | cons a cs ih =>
    by_cases ha : p a
    · rw [List.dropWhile_cons_of_pos ha] at h; exact ih h
    · rw [List.dropWhile_cons_of_neg ha] at h
      cases h
      simp only [Bool.not_eq_true] at ha
      exact ha

/-- The first character of a stripped text is not whitespace. -/
theorem stripL_head_not_space {cs : List Char} {e : Char} {es : List Char}
    (h : stripL cs = e :: es) : pyIsSpace e = false := by
  obtain ⟨t, ht⟩ := List.rdropWhile_prefix pyIsSpace (cs.dropWhile pyIsSpace)
  unfold stripL at h
  rw [h] at ht
  exact dropWhile_head_false ht.symm

/-- The claim's line view coincides with `SLc` on the character level. -/
theorem strippedLines_eq (s : String) :
    strippedLines s = (SLc s.data).map (fun l => (⟨l⟩ : String)) := by
  unfold strippedLines SLc pySplitLines
  generalize splitChar '\n' s.data = L
  induction L with
  | nil => rfl
  | cons a L ih =>
    simp only [List.map_cons]
    have hps : pyStrip ⟨a⟩ = (⟨stripL a⟩ : String) := rfl
    by_cases h : stripL a = []
    · have h1 : (decide (pyStrip (⟨a⟩ : String) ≠ "")) = false := by
        rw [hps, h]
        decide
      have h2 : (decide (stripL a ≠ [])) = false := by rw [h]; decide
      rw [List.filter_cons_of_neg (by simp [h1]), List.filter_cons_of_neg (by simp [h2])]
      exact ih
    · have h1 : (decide (pyStrip (⟨a⟩ : String) ≠ "")) = true := by
        rw [hps]
        apply decide_eq_true
        intro hc
        apply h
        have h3 := congrArg String.data hc
        simpa using h3
      have h2 : (decide (stripL a ≠ [])) = true := decide_eq_true h
      rw [@List.filter_cons_of_pos _ (fun l => decide (l ≠ "")) (pyStrip ⟨a⟩)
            (List.map pyStrip (List.map (fun l => (⟨l⟩ : String)) L)) h1,
          @List.filter_cons_of_pos _ (fun l => decide (l ≠ [])) (stripL a)
            (List.map stripL L) h2,
          List.map_cons, ih, hps]

/-- Unfolding of the validator when the stripped source has a first line. -/
theorem validate_mermaid_cons {code first : String} {rest : List String}
    (hne : ¬ pyStrip code = "") (hl : pySplitLines (pyStrip code) = first :: rest) :
    validate_mermaid_syntax code =
      if !(valid_types.any (fun t => strStartsWith (pyLower (pyStrip first)) (pyLower t))) then
        false
      else if countChar '[' code ≠ countChar ']' code ∨
          countChar '(' code ≠ countChar ')' code ∨
          countChar '\x7b' code ≠ countChar '\x7d' code then
        false
      else
        rest.any markerLineTest := by
  unfold validate_mermaid_syntax
  rw [if_neg hne, hl]

/-- Unfolding of the claim predicate when there is a first non-blank line. -/
theorem claimAccepts_cons {code first : String} {rest : List String}
    (hl : strippedLines code = first :: rest) :
    claimValidatorAccepts code ↔
      ((∃ t ∈ valid_types, strStartsWith (pyLower first) (pyLower t) = true) ∧
       countChar '[' code = countChar ']' code ∧
       countChar '(' code = countChar ')' code ∧
       countChar '\x7b' code = countChar '\x7d' code ∧
       ∃ l ∈ rest, strStartsWith l "classDef" = false ∧ strStartsWith l "class " = false ∧
         hasNodeMarker l = true) := by
  unfold claimValidatorAccepts
  rw [hl]

/-- C6: the Mermaid validator accepts exactly when the source is non-blank,
its first non-blank line starts (case-insensitively) with a diagram keyword,
brackets, parentheses and braces each balance over the whole source, and some
non-blank line beyond the first that is not a classDef/class line contains a
node or edge marker. -/
theorem c6_validator_iff (code : String) :
    validate_mermaid_syntax code = true ↔ claimValidatorAccepts code := by
  by_cases hempty : pyStrip code = ""
  · have hnil : stripL code.data = [] := by
      have : (pyStrip code).data = ("" : String).data := by rw [hempty]
      simpa [pyStrip] using this
    have hsl : strippedLines code = [] := by
      rw [strippedLines_eq, SLc_eq_nil_iff.mpr (stripL_eq_nil_iff.mp hnil)]
      rfl
    rw [ validate_mermaid_syntax, if_pos hempty, claimValidatorAccepts, hsl]
    simp
  · obtain ⟨e, es, he⟩ : ∃ e es, stripL code.data = e :: es := by
      rcases hx : stripL code.data with _ | ⟨e, es⟩
      · refine absurd ?_ hempty
        show (⟨stripL code.data⟩ : String) = ""
        rw [hx]
      · exact ⟨e, es, rfl⟩
    have hews : pyIsSpace e = false := stripL_head_not_space he
    obtain ⟨ls, hsplit⟩ := splitChar_head '\n' (stripL code.data)
    have hl₀e : (stripL code.data).takeWhile (fun c => decide (c ≠ '\n')) =
        e :: es.takeWhile (fun c => decide (c ≠ '\n')) := by
      rw [he, List.takeWhile_cons_of_pos]
      apply decide_eq_true
      intro hc
      rw [hc] at hews
      exact absurd hews (by decide)
    have hstrip₀ : stripL ((stripL code.data).takeWhile (fun c => decide (c ≠ '\n'))) ≠ [] := by
      rw [hl₀e]
      intro hc
      have := stripL_eq_nil_iff.mp hc e (List.mem_cons_self _ _)
      rw [hews] at this
      exact absurd this (by decide)
    have hlines : pySplitLines (pyStrip code) =
        (⟨(stripL code.data).takeWhile (fun c => decide (c ≠ '\n'))⟩ : String) ::
          ls.map (fun l => (⟨l⟩ : String)) := by
      show (splitChar '\n' (stripL code.data)).map (fun l => (⟨l⟩ : String)) = _
      rw [hsplit]
      rfl
    have hSL : SLc code.data =
        stripL ((stripL code.data).takeWhile (fun c => decide (c ≠ '\n'))) ::
          (ls.map stripL).filter (fun l => decide (l ≠ [])) := by
      rw [← SLc_stripL]
      unfold SLc
      rw [hsplit]
      simp only [List.map_cons, List.filter_cons, decide_eq_true hstrip₀]
      rfl
    have hclaim : strippedLines code =
        (⟨stripL ((stripL code.data).takeWhile (fun c => decide (c ≠ '\n')))⟩ : String) ::
          ((ls.map stripL).filter (fun l => decide (l ≠ []))).map (fun l => (⟨l⟩ : String)) := by
      rw [strippedLines_eq, hSL]
      rfl
    rw [validate_mermaid_cons hempty hlines, claimAccepts_cons hclaim]
    by_cases h1 : valid_types.any (fun t =>
        strStartsWith (pyLower (pyStrip
          (⟨(stripL code.data).takeWhile (fun c => decide (c ≠ '\n'))⟩ : String))) (pyLower t))
    · rw [h1]
      by_cases h2 : countChar '[' code ≠ countChar ']' code ∨
          countChar '(' code ≠ countChar ')' code ∨
          countChar '\x7b' code ≠ countChar '\x7d' code
      · rw [if_pos h2]
        simp only [Bool.not_true, Bool.false_eq_true, if_false, false_iff]
        rintro ⟨-, hc1, hc2, hc3, -⟩
        rcases h2 with hq | hq | hq
        · exact hq hc1
        · exact hq hc2
        · exact hq hc3
      · rw [if_neg h2]
        push_neg at h2
        obtain ⟨hc1, hc2, hc3⟩ := h2
        simp only [Bool.not_true, Bool.false_eq_true, if_false]
        constructor
        · intro hany
          refine ⟨?_, hc1, hc2, hc3, ?_⟩
          · have := List.any_eq_true.mp h1
            obtain ⟨t, ht, hts⟩ := this
            exact ⟨t, ht, hts⟩
          · obtain ⟨l, hlmem, hltest⟩ := List.any_eq_true.mp hany
            obtain ⟨u, hu, rfl⟩ := List.mem_map.mp hlmem
            unfold markerLineTest at hltest
            simp only [Bool.and_eq_true, decide_eq_true_eq, Bool.not_eq_true'] at hltest
            obtain ⟨⟨⟨hne', hsw1⟩, hsw2⟩, hmk⟩ := hltest
            refine ⟨pyStrip (⟨u⟩ : String), ?_, hsw1, hsw2, hmk⟩
            apply List.mem_map.mpr
            refine ⟨stripL u, ?_, rfl⟩
            apply List.mem_filter.mpr
            refine ⟨List.mem_map_of_mem stripL hu, ?_⟩
            apply decide_eq_true
            intro hc
            apply hne'
            show (⟨stripL u⟩ : String) = ""
            rw [hc]
        · rintro ⟨-, -, -, -, l, hlmem, hsw1, hsw2, hmk⟩
          obtain ⟨v, hv, rfl⟩ := List.mem_map.mp hlmem
          obtain ⟨hvmem, hvne⟩ := List.mem_filter.mp hv
          obtain ⟨u, hu, rfl⟩ := List.mem_map.mp hvmem
          apply List.any_eq_true.mpr
          refine ⟨(⟨u⟩ : String), List.mem_map_of_mem _ hu, ?_⟩
          unfold markerLineTest
          simp only [Bool.and_eq_true, decide_eq_true_eq, Bool.not_eq_true']
          refine ⟨⟨⟨?_, hsw1⟩, hsw2⟩, hmk⟩
          intro hc
          have : stripL u = [] := by
            have := congrArg String.data hc
            simpa [pyStrip] using this
          rw [this] at hvne
          simp at hvne
    · simp only [Bool.not_eq_true] at h1
      simp only [h1, Bool.not_false, if_true, Bool.false_eq_true, false_iff]
      rintro ⟨⟨t, ht, hts⟩, -⟩
      have h1x : (valid_types.any fun t =>
          strStartsWith
            (pyLower (⟨stripL ((stripL code.data).takeWhile (fun c => decide (c ≠ '\n')))⟩ : String))
            (pyLower t)) = false := h1
      have h1y : (valid_types.any fun t =>
          strStartsWith
            (pyLower (⟨stripL ((stripL code.data).takeWhile (fun c => decide (c ≠ '\n')))⟩ : String))
            (pyLower t)) = true :=
        List.any_eq_true.mpr ⟨t, ht, hts⟩
      rw [h1x] at h1y
      exact absurd h1y (by decide)

/-- Witness for `c6_validator_iff` at a concrete two-line graph source. -/
theorem c6_validator_iff_witness :
    validate_mermaid_syntax "graph TD\n    A[Start] --> B" = true ↔
      claimValidatorAccepts "graph TD\n    A[Start] --> B" :=
  c6_validator_iff "graph TD\n    A[Start] --> B"

/-! ## Vision-response parsing: the freeform-text Mermaid extraction of
`parse_vlm_response` (docling_processor.py lines 1571-1711). -/

/-- Case-insensitive prefix test: the pattern is supplied lower-cased. -/
def ciPrefix (pat : List Char) (l : List Char) : Bool :=
  decide (((l.take pat.length).map Char.toLower) = pat)

/-- The regex `(graph|flowchart)` then `\s+` then `(TD|LR|TB|RL|BT|UD)`,
anchored at the line start and case-insensitive, used at lines 1623 and 1650
to recognise diagram-declaration lines. -/
def isGraphDeclaration (line : String) : Bool :=
  (["graph", "flowchart"] : List String).any (fun kw =>
    strStartsWith (pyLower line) kw &&
    (match (pyLower line).data.drop kw.length with
     | [] => false
     | c :: cs => pyIsSpace c &&
        ((["td", "lr", "tb", "rl", "bt", "ud"] : List String).any
          (fun dsplit => dsplit.data.isPrefixOf ((c :: cs).dropWhile pyIsSpace)))))

/-- One pass of the declaration-deduplication loop (lines 1617-1632, repeated
verbatim at 1644-1656): strip each line, drop blank lines, and keep only the
first diagram-declaration line. -/
def dedupDeclLines (found : Bool) : List String → List String
  | [] => []
  | l :: ls =>
    let line := pyStrip l
    if line = "" then dedupDeclLines found ls
    else if isGraphDeclaration line then
      if found then dedupDeclLines found ls
      else line :: dedupDeclLines true ls
    else line :: dedupDeclLines found ls

/-- The Mermaid-block clean-up of `parse_vlm_response` (lines 1610-1667): two
identical deduplication passes, and a block with no content beyond the
declaration is discarded entirely. -/
def cleanMermaidBlock (raw_mermaid : String) : String :=
  let cleaned_lines := dedupDeclLines false (pySplitLines raw_mermaid)
  if 1 < cleaned_lines.length then
    let mermaid_code := String.intercalate "\n" cleaned_lines
    let final_lines := dedupDeclLines false (pySplitLines mermaid_code)
    if 1 < final_lines.length then String.intercalate "\n" final_lines else ""
  else ""

/-- Scan for the earliest `\n`-fence terminator, returning the text before it. -/
def findClose : List Char → Option (List Char)
  | [] => none
  | c :: cs =>
    if ("\n```".data).isPrefixOf (c :: cs) then some []
    else
      match findClose cs with
      | some g => some (c :: g)
      | none => none

/-- Leftmost match of the fenced-block opener with a closing fence after it:
the `re.search` semantics of the first (standard) pattern of line 1602,
` ```mermaid\n(.*?)\n``` ` with DOTALL and IGNORECASE.  The two laxer patterns
of lines 1603-1604 fire only when this one finds nothing. -/
def scanFence : List Char → Option (List Char)
  | [] => none
  | c :: cs =>
    if ciPrefix ("```mermaid\n".data) (c :: cs) then
      match findClose ((c :: cs).drop 11) with
      | some grp => some grp
      | none => scanFence cs
    else scanFence cs

/-- The freeform-response Mermaid extraction: matched group, stripped, then
cleaned (lines 1607-1668). -/
def parse_vlm_mermaid (content : String) : String :=
  match scanFence content.data with
  | none => ""
  | some grp => cleanMermaidBlock (pyStrip (⟨grp⟩ : String))

/-- The stripped non-blank members of a list of lines. -/
def strippedNonblank (ls : List String) : List String :=
  (ls.map pyStrip).filter (fun l => decide (l ≠ ""))

/-- Once a declaration has been seen, every further declaration is dropped. -/
theorem dedup_true_no_decl (ls : List String) :
    (dedupDeclLines true ls).filter isGraphDeclaration = [] := by
  induction ls with
  | nil => rfl
  | cons l ls ih =>
    unfold dedupDeclLines
    by_cases h0 : pyStrip l = ""
    · simpa [h0] using ih
    · by_cases hd : isGraphDeclaration (pyStrip l)
      · simpa [h0, hd] using ih
      · simpa [h0, hd] using ih

/-- Non-declaration lines survive deduplication unchanged, whatever the flag. -/
theorem dedup_filter_nondecl (b : Bool) (ls : List String) :
    (dedupDeclLines b ls).filter (fun l => !(isGraphDeclaration l)) =
      (strippedNonblank ls).filter (fun l => !(isGraphDeclaration l)) := by
  induction ls generalizing b with
  | nil => rfl
  | cons l ls ih =>
    unfold dedupDeclLines strippedNonblank
    by_cases h0 : pyStrip l = ""
    · simpa [h0, strippedNonblank] using ih b
    · by_cases hd : isGraphDeclaration (pyStrip l)
      · cases b with
        | false => simpa [h0, hd, strippedNonblank] using ih true
        | true => simpa [h0, hd, strippedNonblank] using ih true
      · cases b with
        | false => simpa [h0, hd, strippedNonblank] using ih false
        | true => simpa [h0, hd, strippedNonblank] using ih true

/-- The first declaration line is the only declaration kept. -/
theorem dedup_filter_decl (ls : List String) :
    (dedupDeclLines false ls).filter isGraphDeclaration =
      ((strippedNonblank ls).filter isGraphDeclaration).take 1 := by
  induction ls with
  | nil => rfl
  | cons l ls ih =>
    unfold dedupDeclLines strippedNonblank
    by_cases h0 : pyStrip l = ""
    · simpa [h0, strippedNonblank] using ih
    · by_cases hd : isGraphDeclaration (pyStrip l)
      · simp [h0, hd, strippedNonblank, dedup_true_no_decl]
      · simpa [h0, hd, strippedNonblank] using ih

/-- C5: the response parser keeps only the first diagram-declaration line and
strips the duplicates while preserving every other non-blank line; a block
left with nothing beyond the declaration is discarded; and on the claim's
concrete response the extracted source is `graph TD` then `A-->B`. -/
theorem c5_mermaid_dedup :
    (∀ ls : List String,
      (dedupDeclLines false ls).filter isGraphDeclaration =
        ((strippedNonblank ls).filter isGraphDeclaration).take 1 ∧
      (dedupDeclLines false ls).filter (fun l => !(isGraphDeclaration l)) =
        (strippedNonblank ls).filter (fun l => !(isGraphDeclaration l))) ∧
    (∀ raw : String, ¬ 1 < (dedupDeclLines false (pySplitLines raw)).length →
      cleanMermaidBlock raw = "") ∧
    parse_vlm_mermaid "```mermaid\ngraph TD\ngraph TD\nA-->B\n```" =
      "graph TD\nA-->B" := by
  refine ⟨fun ls => ⟨dedup_filter_decl ls, dedup_filter_nondecl false ls⟩, ?_, ?_⟩
  · intro raw h
    unfold cleanMermaidBlock
    simp only [if_neg h]
  · decide

/-- Witness for `c5_mermaid_dedup`: a block that is only a declaration line is
discarded. -/
theorem c5_mermaid_dedup_witness :
    (¬ 1 < (dedupDeclLines false (pySplitLines "graph TD")).length) ∧
    cleanMermaidBlock "graph TD" = "" :=
  ⟨by decide, c5_mermaid_dedup.2.1 "graph TD" (by decide)⟩

/-! ## Mermaid Synthesizer (docling_processor.py lines 2474-2748). -/

/-- Embedding of `clean_mermaid_text` (lines 2717-2748). -/
def clean_mermaid_text (text : String) : String :=
  if text = "" then "Unknown"
  else
    let c0 := pyStrip text
    let c1 := pyReplace c0 "\"" sq
    let c2 := pyReplace c1 "[" "("
    let c3 := pyReplace c2 "]" ")"
    let c4 := pyReplace c3 "\x7b" "("
    let c5 := pyReplace c4 "\x7d" ")"
    let c6 := pyReplace c5 "|" "-"
    let c7 := pyReplace c6 "\n" " "
    let c8 := pyReplace c7 "\r" " "
    let c9 := if 50 < c8.data.length then (⟨c8.data.take 47⟩ : String) ++ "..." else c8
    if pyStrip c9 = "" then "Unknown" else pyStrip c9

/-- Python `chr(ord(upper-a) + i)` node naming. -/
def nodeLetter (i : Nat) : String := ⟨[Char.ofNat (65 + i)]⟩

/-- Decision-like text test of line 2528. -/
def isDecisionText (t : String) : Bool :=
  strContains t "?" ||
    (["if", "decision", "choose"] : List String).any (fun k => strContains (pyLower t) k)

/-- Embedding of `generate_flowchart_mermaid` (lines 2517-2573). -/
def generate_flowchart_mermaid (description : String) (text_elements : List String) : String :=
  let decisions := text_elements.filter isDecisionText
  let steps := text_elements.filter (fun t => !(isDecisionText t))
  let startLines :=
    match steps with
    | [] => []
    | s :: _ => ["    A[" ++ clean_mermaid_text s ++ "]"]
  let processLines := (steps.drop 1).enum.map (fun p =>
    "    " ++ nodeLetter (p.1 + 1) ++ "[" ++ clean_mermaid_text p.2 ++ "]")
  let decisionLines := decisions.enum.map (fun p =>
    "    " ++ nodeLetter (steps.length + p.1) ++ "\x7b\x7b" ++ clean_mermaid_text p.2 ++ "\x7d\x7d")
  let connLines := (List.range (steps.length - 1)).map (fun i =>
    "    " ++ nodeLetter i ++ " --> " ++ nodeLetter (i + 1))
  let decConn :=
    if decisions ≠ [] ∧ steps ≠ [] then
      ["    " ++ nodeLetter (steps.length - 1) ++ " --> " ++ nodeLetter steps.length]
    else []
  String.intercalate "\n"
    (["flowchart TD"] ++ startLines ++ processLines ++ decisionLines ++ connLines ++ decConn)

/-- Database-keyword test of line 2588. -/
def isDatabaseText (t : String) : Bool :=
  (["database", "db", "storage"] : List String).any (fun k => strContains (pyLower t) k)

/-- Service-keyword test of line 2590. -/
def isServiceText (t : String) : Bool :=
  (["service", "api", "server"] : List String).any (fun k => strContains (pyLower t) k)

/-- Embedding of `generate_architecture_mermaid` (lines 2575-2635): databases
first claim their elements, then services, the rest are components; components
are rectangles, services rounded nodes, databases cylinders; all nodes chain
linearly; fixed classDef styling lines follow. -/
def generate_architecture_mermaid (description : String) (text_elements : List String) : String :=
  let databases := text_elements.filter isDatabaseText
  let services := text_elements.filter (fun t => !(isDatabaseText t) && isServiceText t)
  let components := text_elements.filter (fun t => !(isDatabaseText t) && !(isServiceText t))
  let componentLines := components.enum.map (fun p =>
    "    " ++ nodeLetter p.1 ++ "[" ++ clean_mermaid_text p.2 ++ "]")
  let serviceLines := services.enum.map (fun p =>
    "    " ++ nodeLetter (components.length + p.1) ++ "(" ++ clean_mermaid_text p.2 ++ ")")
  let databaseLines := databases.enum.map (fun p =>
    "    " ++ nodeLetter (components.length + services.length + p.1) ++
      "[(" ++ clean_mermaid_text p.2 ++ ")]")
  let total := components.length + services.length + databases.length
  let connLines := (List.range (total - 1)).map (fun i =>
    "    " ++ nodeLetter i ++ " --> " ++ nodeLetter (i + 1))
  String.intercalate "\n"
    (["graph TD"] ++ componentLines ++ serviceLines ++ databaseLines ++ connLines ++
      ["", "    classDef compute fill:#FF9900,color:#fff",
       "    classDef storage fill:#569A31,color:#fff",
       "    classDef database fill:#205081,color:#fff",
       "    classDef networking fill:#8C4FFF,color:#fff"])

/-- Decimal digits of a natural number. -/
def natDigits (n : Nat) : String := ⟨Nat.toDigits 10 n⟩

/-- Fractional decimal digits of `r / d`, up to the fuel bound. -/
def fracDigits : Nat → Nat → Nat → List Char
  | 0, _, _ => []
  | _ + 1, 0, _ => []
  | fuel + 1, r, d => Nat.digitChar (r * 10 / d) :: fracDigits fuel (r * 10 % d) d

/-- Python `str(float)` for the non-negative terminating decimals produced by
the numeric token parsers of this subsystem. -/
def pyFloatStr (q : ℚ) : String :=
  let n := q.num.toNat
  let d := q.den
  if n % d = 0 then natDigits (n / d) ++ ".0"
  else natDigits (n / d) ++ "." ++ (⟨fracDigits 20 (n % d) d⟩ : String)

/-- Length of the numeric token matched at this position by the unanchored
regex `\d+\.?\d*`: maximal digits, an optional dot, then maximal digits;
zero when no token starts here. -/
def numTokLen (cs : List Char) : Nat :=
  match cs with
  | [] => 0
  | c :: _ =>
    if c.isDigit then
      match cs.dropWhile Char.isDigit with
      | '.' :: rest2 =>
        (cs.takeWhile Char.isDigit).length + 1 + (rest2.takeWhile Char.isDigit).length
      | _ => (cs.takeWhile Char.isDigit).length
    else 0

/-- Fuel-driven worker for `findNumTokens`. -/
def findNumTokensGo : Nat → List Char → List (List Char)
  | 0, _ => []
  | _ + 1, [] => []
  | fuel + 1, c :: cs =>
    if 0 < numTokLen (c :: cs) then
      (c :: cs).take (numTokLen (c :: cs)) ::
        findNumTokensGo fuel ((c :: cs).drop (numTokLen (c :: cs)))
    else findNumTokensGo fuel cs

/-- Python `re.findall` of `\d+\.?\d*`: leftmost non-overlapping matches. -/
def findNumTokens (cs : List Char) : List (List Char) :=
  findNumTokensGo cs.length cs

/-- Python `float` on a matched numeric token. -/
def parseFloatTok (tok : List Char) : ℚ :=
  let intPart := tok.takeWhile Char.isDigit
  let fracPart := (tok.dropWhile Char.isDigit).drop 1
  (intPart.foldl (fun acc c => acc * 10 + (c.toNat - 48)) 0 : ℚ) +
    (fracPart.foldl (fun acc c => acc * 10 + (c.toNat - 48)) 0 : ℚ) /
      ((10 : ℚ) ^ fracPart.length)

/-- Fuel-driven worker for `removeNumTokens`. -/
def removeNumTokensGo : Nat → List Char → List Char
  | 0, cs => cs
  | _ + 1, [] => []
  | fuel + 1, c :: cs =>
    if 0 < numTokLen (c :: cs) then
      removeNumTokensGo fuel ((c :: cs).drop (numTokLen (c :: cs)))
    else c :: removeNumTokensGo fuel cs

/-- Python `re.sub` of `\d+\.?\d*` with the empty replacement: the text with
every numeric token removed. -/
def removeNumTokens (cs : List Char) : List Char :=
  removeNumTokensGo cs.length cs

/-- Embedding of `generate_chart_mermaid` (lines 2637-2680). -/
def generate_chart_mermaid (description : String) (text_elements : List String) : String :=
  let numbers := text_elements.flatMap (fun t => (findNumTokens t.data).map parseFloatTok)
  let labels := text_elements.filterMap (fun t =>
    let non_numeric := pyStrip (⟨removeNumTokens t.data⟩ : String)
    if non_numeric ≠ "" ∧ 1 < non_numeric.data.length then some non_numeric else none)
  if numbers ≠ [] ∧ labels ≠ [] then
    let pairs := (labels.take 5).zip (numbers.take 5)
    let nodes := pairs.enum.map (fun p =>
      "    " ++ nodeLetter p.1 ++ "[\"" ++ clean_mermaid_text p.2.1 ++ ": " ++
        pyFloatStr p.2.2 ++ "\"]")
    let connLines := (List.range (min labels.length numbers.length - 1)).map (fun i =>
      "    " ++ nodeLetter i ++ " --> " ++ nodeLetter (i + 1))
    String.intercalate "\n" (["graph LR"] ++ nodes ++ connLines)
  else
    "graph TD\n    A[\"" ++ clean_mermaid_text description ++ "\"]"

/-- Embedding of `generate_generic_mermaid` (lines 2682-2715). -/
def generate_generic_mermaid (description : String) (text_elements : List String)
    (diagram_type : String) : String :=
  let text_content := pyLower (description ++ " " ++ String.intercalate " " text_elements)
  if (["flow", "process", "step", "sequence"] : List String).any
      (fun k => strContains text_content k) then
    generate_flowchart_mermaid description text_elements
  else if (["system", "architecture", "component", "service"] : List String).any
      (fun k => strContains text_content k) then
    generate_architecture_mermaid description text_elements
  else if text_elements ≠ [] then
    let nodes := (text_elements.take 6).enum.map (fun p =>
      "    " ++ nodeLetter p.1 ++ "[" ++ clean_mermaid_text p.2 ++ "]")
    let connLines := (List.range ((text_elements.take 6).length - 1)).map (fun i =>
      "    " ++ nodeLetter i ++ " --> " ++ nodeLetter (i + 1))
    String.intercalate "\n" (["graph TD"] ++ nodes ++ connLines)
  else
    String.intercalate "\n" ["graph TD", "    A[" ++ clean_mermaid_text description ++ "]"]

/-! ## Diagram records and the Mermaid conversion step
(docling_processor.py lines 2372-2515). -/

/-- Bounding box as produced by `extract_bounding_box` (lines 1055-1070). -/
structure BBox where
  x : ℚ := 0
  y : ℚ := 0
  width : ℚ := 0
  height : ℚ := 0
deriving DecidableEq

/-- One element dictionary of a diagram record (the `type`/`content`/`position`
and optional OCR `confidence` keys). -/
structure TextElem where
  etype : String := "text"
  content : String := ""
  position : String := ""
  confidence : ℚ := 0
  bounding_box : Option BBox := none
deriving DecidableEq

/-- The `extracted_data` payloads built by `generate_structured_data_and_prompt`
(lines 1987-2076); `connections` of the architecture payload is always empty in
the source and is omitted. -/
inductive ExtractedData where
  | emptyData : ExtractedData
  | chartData (data_points : List ℚ) (labels : List String)
      (chart_elements : List String) : ExtractedData
  | architectureData (components : List String) (services : List String) : ExtractedData
  | flowchartData (steps decision_points processes : List String) : ExtractedData
  | genericData (text_elements : List String) (numerical_data : List ℚ)
      (labels : List String) : ExtractedData
deriving DecidableEq

/-- The diagram dictionary built per figure by `extract_diagram_descriptions`
(lines 1151-1204), including the keys optionally added by the vision branch
and by `convert_diagrams_to_mermaid`. -/
structure DiagramData where
  id : String := ""
  dtype : String := "diagram"
  page_number : Option Int := none
  caption : String := ""
  description : String := ""
  diagram_type : String := "unknown"
  elements : List TextElem := []
  bounding_box : BBox := {}
  confidence : ℚ := 0
  base64_data : Option String := none
  extracted_data : Option ExtractedData := none
  recreation_prompt : Option String := none
  suggested_format : Option String := none
  mermaid_code : Option String := none
deriving DecidableEq

/-- The `content` entries of the element dictionaries. -/
def elementContents (es : List TextElem) : List String := es.map (fun e => e.content)

/-- The fields of a record read by the classifier (lines 2420-2423). -/
def toDiagramInfo (d : DiagramData) : DiagramInfo :=
  ⟨d.diagram_type, d.description, d.caption, elementContents d.elements⟩

/-- Embedding of `generate_mermaid_code` (lines 2474-2515): dispatch on the
diagram type; success exactly when the generated string is non-empty. -/
def generate_mermaid_code (d : DiagramData) : Option String :=
  let text_elements := elementContents d.elements
  let code :=
    if d.diagram_type = "flowchart" then generate_flowchart_mermaid d.description text_elements
    else if d.diagram_type = "architecture" then
      generate_architecture_mermaid d.description text_elements
    else if d.diagram_type = "chart" then generate_chart_mermaid d.description text_elements
    else generate_generic_mermaid d.description text_elements d.diagram_type
  if code = "" then none else some code

/-- The per-record body of `convert_diagrams_to_mermaid` (lines 2377-2408):
records below the 0.8 confidence threshold, records classified as screenshots
and records with classification confidence below 0.8 pass through unchanged;
otherwise generated Mermaid code is attached only after validation. -/
def convertOne (d : DiagramData) : DiagramData :=
  if d.confidence < 4/5 then d
  else if (classify_diagram_vs_screenshot (toDiagramInfo d)).1 = false ∨
      (classify_diagram_vs_screenshot (toDiagramInfo d)).2 < 4/5 then d
  else
    match generate_mermaid_code d with
    | some code =>
      if validate_mermaid_syntax code then { d with mermaid_code := some code } else d
    | none => d

/-- Embedding of `convert_diagrams_to_mermaid` (lines 2372-2414). -/
def convert_diagrams_to_mermaid (diagrams : List DiagramData) : List DiagramData :=
  diagrams.map convertOne

/-- C9 counterexample: on the claim's concrete architecture scenario the
generated source renders API Service as a rounded (service) node, not the
rectangle the claim asserts: the rectangle text never occurs in the output. -/
theorem c9_counterexample :
    generate_architecture_mermaid "System Architecture Overview"
        ["API Service", "User Database"] =
      "graph TD\n    A(API Service)\n    B[(User Database)]\n    A --> B\n\n    classDef compute fill:#FF9900,color:#fff\n    classDef storage fill:#569A31,color:#fff\n    classDef database fill:#205081,color:#fff\n    classDef networking fill:#8C4FFF,color:#fff" ∧
    strContains (generate_architecture_mermaid "System Architecture Overview"
        ["API Service", "User Database"]) "[API Service]" = false := by
  refine ⟨by decide, by decide⟩

/-- C9 (amended): the architecture generator on the scenario yields a source
starting with `graph TD`, containing one rounded node for API Service, one
cylinder node for User Database and an edge between them, and the validator
accepts it. -/
theorem c9_architecture_scenario :
    strStartsWith (generate_architecture_mermaid "System Architecture Overview"
      ["API Service", "User Database"]) "graph TD" = true ∧
    strContains (generate_architecture_mermaid "System Architecture Overview"
      ["API Service", "User Database"]) "A(API Service)" = true ∧
    strContains (generate_architecture_mermaid "System Architecture Overview"
      ["API Service", "User Database"]) "B[(User Database)]" = true ∧
    strContains (generate_architecture_mermaid "System Architecture Overview"
      ["API Service", "User Database"]) "A --> B" = true ∧
    validate_mermaid_syntax (generate_architecture_mermaid "System Architecture Overview"
      ["API Service", "User Database"]) = true := by
  refine ⟨by decide, by decide, by decide, by decide, by decide⟩

/-- C10: the conversion step is a per-record map (length and order preserved);
each output record is its input either unchanged or with only the
mermaid_code field set; low record confidence, a screenshot classification or
low classification confidence each leave the record entirely unchanged. -/
theorem c10_conversion_frame :
    (∀ ds : List DiagramData,
      (convert_diagrams_to_mermaid ds).length = ds.length ∧
      ∀ i : Nat, (convert_diagrams_to_mermaid ds)[i]? = (ds[i]?).map convertOne) ∧
    (∀ d : DiagramData,
      ((convertOne d).id = d.id ∧ (convertOne d).dtype = d.dtype ∧
       (convertOne d).page_number = d.page_number ∧ (convertOne d).caption = d.caption ∧
       (convertOne d).description = d.description ∧
       (convertOne d).diagram_type = d.diagram_type ∧
       (convertOne d).elements = d.elements ∧
       (convertOne d).bounding_box = d.bounding_box ∧
       (convertOne d).confidence = d.confidence ∧
       (convertOne d).base64_data = d.base64_data ∧
       (convertOne d).extracted_data = d.extracted_data ∧
       (convertOne d).recreation_prompt = d.recreation_prompt ∧
       (convertOne d).suggested_format = d.suggested_format) ∧
      (convertOne d = d ∨ ∃ code, convertOne d = { d with mermaid_code := some code }) ∧
      (d.confidence < 4/5 → convertOne d = d) ∧
      ((classify_diagram_vs_screenshot (toDiagramInfo d)).1 = false ∨
        (classify_diagram_vs_screenshot (toDiagramInfo d)).2 < 4/5 → convertOne d = d)) := by
  constructor
  · intro ds
    refine ⟨by simp [convert_diagrams_to_mermaid], ?_⟩
    intro i
    simp [convert_diagrams_to_mermaid]
  · intro d
    by_cases h1 : d.confidence < 4/5
    · simp [convertOne, h1]
    · by_cases h2 : (classify_diagram_vs_screenshot (toDiagramInfo d)).1 = false ∨
          (classify_diagram_vs_screenshot (toDiagramInfo d)).2 < 4/5
      · simp [convertOne, h1, h2]
      · rcases hg : generate_mermaid_code d with _ | code
        · simp [convertOne, h1, h2, hg]
        · by_cases hv : validate_mermaid_syntax code = true
          · refine ⟨?_, ?_, ?_, ?_⟩
            · simp [convertOne, h1, h2, hg, hv]
            · right
              exact ⟨code, by simp [convertOne, h1, h2, hg, hv]⟩
            · intro hc; exact absurd hc h1
            · intro hc; exact absurd hc h2
          · have hvf : validate_mermaid_syntax code = false := by
              cases hx : validate_mermaid_syntax code
              · rfl
              · exact absurd hx hv
            simp [convertOne, h1, h2, hg, hvf]

/-- Witness for `c10_conversion_frame`: a default record sits below the 0.8
confidence threshold and passes through completely unchanged. -/
theorem c10_conversion_frame_witness :
    (({} : DiagramData).confidence < 4/5) ∧ convertOne {} = {} :=
  ⟨by norm_num, (c10_conversion_frame.2 {}).2.2.1 (by norm_num)⟩

/-- C7: records entering the conversion step without Mermaid code leave it
either still without Mermaid code or carrying code the validator accepts;
rejected generator output is never attached. -/
theorem c7_validator_soundness (ds : List DiagramData) (d : DiagramData)
    (hmem : d ∈ convert_diagrams_to_mermaid ds)
    (hnone : ∀ x ∈ ds, x.mermaid_code = none) :
    d.mermaid_code = none ∨
      ∃ code, d.mermaid_code = some code ∧ validate_mermaid_syntax code = true := by
  obtain ⟨x, hx, rfl⟩ := List.mem_map.mp hmem
  by_cases h1 : x.confidence < 4/5
  · left; simp only [convertOne, if_pos h1]; exact hnone x hx
  · by_cases h2 : (classify_diagram_vs_screenshot (toDiagramInfo x)).1 = false ∨
        (classify_diagram_vs_screenshot (toDiagramInfo x)).2 < 4/5
    · left; simp only [convertOne, if_neg h1, if_pos h2]; exact hnone x hx
    · rcases hg : generate_mermaid_code x with _ | code
      · left; simp only [convertOne, if_neg h1, if_neg h2, hg]; exact hnone x hx
      · by_cases hv : validate_mermaid_syntax code = true
        · right
          refine ⟨code, ?_, hv⟩
          simp [convertOne, if_neg h1, if_neg h2, hg, hv]
        · left
          have hvf : validate_mermaid_syntax code = false := by
            cases hx2 : validate_mermaid_syntax code
            · rfl
            · exact absurd hx2 hv
          simp only [convertOne, if_neg h1, if_neg h2, hg, hvf, Bool.false_eq_true, if_false]
          exact hnone x hx

/-- Witness for `c7_validator_soundness` on a one-record list. -/
theorem c7_validator_soundness_witness :
    convertOne ({} : DiagramData) ∈ convert_diagrams_to_mermaid [{}] ∧
    (∀ x ∈ ([{}] : List DiagramData), x.mermaid_code = none) ∧
    ((convertOne ({} : DiagramData)).mermaid_code = none ∨
      ∃ code, (convertOne ({} : DiagramData)).mermaid_code = some code ∧
        validate_mermaid_syntax code = true) :=
  ⟨List.mem_map_of_mem convertOne (List.mem_singleton.mpr rfl),
   fun x hx => by rw [List.mem_singleton.mp hx],
   c7_validator_soundness [{}] (convertOne {})
     (List.mem_map_of_mem convertOne (List.mem_singleton.mpr rfl))
     (fun x hx => by rw [List.mem_singleton.mp hx])⟩

/-! ## Analysis Dispatcher: figures, context analysis and structured data
(docling_processor.py lines 1072-1209, 1815-2090). -/

/-- Word characters of the regex classes used by the context extractor. -/
def isWordChar (c : Char) : Bool := c.isAlpha || c.isDigit || c = '_'

/-- Length of the token matched at this position by `\b\d+\.?\d*\b` (the
context extractor's number regex, line 1829), honouring the word boundaries
and the regex engine's backtracking of the optional dot and trailing digits;
zero when no match starts here.  `prevWord` tells whether the preceding
character is a word character. -/
def bNumTokLen (prevWord : Bool) (cs : List Char) : Nat :=
  match cs with
  | [] => 0
  | c :: _ =>
    if prevWord || !c.isDigit then 0
    else
      let ip := cs.takeWhile Char.isDigit
      match cs.dropWhile Char.isDigit with
      | [] => ip.length
      | '.' :: rest2 =>
        let frac := rest2.takeWhile Char.isDigit
        if frac ≠ [] then
          match rest2.dropWhile Char.isDigit with
          | [] => ip.length + 1 + frac.length
          | d :: _ => if isWordChar d then ip.length + 1 else ip.length + 1 + frac.length
        else
          match rest2 with
          | [] => ip.length
          | d :: _ => if isWordChar d then ip.length + 1 else ip.length
      | d :: _ => if isWordChar d then 0 else ip.length

/-- Fuel-driven scan for all boundary-delimited number tokens. -/
def scanBNums : Bool → Nat → List Char → List (List Char)
  | _, 0, _ => []
  | _, _ + 1, [] => []
  | prevWord, fuel + 1, c :: cs =>
    let k := bNumTokLen prevWord (c :: cs)
    if 0 < k then
      let tok := (c :: cs).take k
      (c :: cs).take k :: scanBNums (isWordChar (tok.getLastD c)) fuel ((c :: cs).drop k)
    else scanBNums (isWordChar c) fuel cs

/-- `re.findall(\b\d+\.?\d*\b, context)` then `float`, keeping positives
(line 1830). -/
def contextNumbers (context_text : String) : List ℚ :=
  (((scanBNums false context_text.data.length context_text.data).map parseFloatTok).filter
    (fun q => decide (0 < q)))

/-- End-boundary test for a candidate label match `c :: run.take k`:
the regex boundary holds when exactly one of the last matched character and
the following character is a word character (end of input counts as
non-word). -/
def labelBoundary (c : Char) (run restAfter : List Char) (k : Nat) : Bool :=
  let lastc := (run.take k).getLastD c
  let nextc := if k < run.length then run[k]? else restAfter.head?
  match nextc with
  | none => isWordChar lastc
  | some d => isWordChar lastc != isWordChar d

/-- Greatest `k` between 1 and the run length whose end position is a
boundary (the regex engine's greedy match with backtracking); 0 when none. -/
def bestLabelK (c : Char) (run restAfter : List Char) : Nat → Nat
  | 0 => 0
  | k + 1 => if labelBoundary c run restAfter (k + 1) then k + 1 else bestLabelK c run restAfter k

/-- Length of the token matched here by `\b[a-zA-Z][a-zA-Z\s]+\b` (the context
extractor's label regex, line 1833); zero when no match starts here. -/
def labelTokLen (prevWord : Bool) (cs : List Char) : Nat :=
  match cs with
  | [] => 0
  | c :: cs' =>
    if prevWord || !c.isAlpha then 0
    else
      let run := cs'.takeWhile (fun ch => ch.isAlpha || pyIsSpace ch)
      let k := bestLabelK c run (cs'.drop run.length) run.length
      if 0 < k then 1 + k else 0

/-- Fuel-driven scan for all label tokens. -/
def scanLabels : Bool → Nat → List Char → List (List Char)
  | _, 0, _ => []
  | _, _ + 1, [] => []
  | prevWord, fuel + 1, c :: cs =>
    let k := labelTokLen prevWord (c :: cs)
    if 0 < k then
      let tok := (c :: cs).take k
      (c :: cs).take k :: scanLabels (isWordChar (tok.getLastD c)) fuel ((c :: cs).drop k)
    else scanLabels (isWordChar c) fuel cs

/-- The label extraction of lines 1833-1834: matched word runs, stripped, kept
when longer than two characters and not in the stop list. -/
def contextLabels (context_text : String) : List String :=
  ((scanLabels false context_text.data.length context_text.data).map
      (fun w => pyStrip (⟨w⟩ : String))).filter (fun w =>
    decide (2 < w.data.length) &&
      !((["the", "and", "for", "with", "example", "data", "table"] : List String).any
        (fun st => pyLower w = st)))

/-- Python `', '.join`. -/
def commaJoin (ss : List String) : String := String.intercalate ", " ss

/-- Python `repr` of a list of floats, as rendered inside an f-string. -/
def pyListReprF (qs : List ℚ) : String :=
  "[" ++ String.intercalate ", " (qs.map pyFloatStr) ++ "]"

/-- Python `repr` of a list of plain strings, as rendered inside an f-string
(single-quoted, no escaping needed for the tokens produced here). -/
def pyListReprS (ss : List String) : String :=
  "[" ++ String.intercalate ", " (ss.map (fun s => sq ++ s ++ sq)) ++ "]"

/-- The common dict shape returned by every analysis strategy. -/
structure VisionDesc where
  description : String := ""
  vtype : String := "unknown"
  elements : List TextElem := []
  confidence : ℚ := 0
  mermaid_code : String := ""
  text_representation : String := ""
  extracted_data : Option ExtractedData := none
  recreation_prompt : Option String := none
  suggested_format : Option String := none
deriving DecidableEq

/-- Embedding of `generate_structured_data_and_prompt` (lines 1962-2090):
numeric values and labels are re-extracted from the text elements exactly as
in `generate_chart_mermaid`, then a type-specific payload, prompt and
suggested format are built. -/
def generate_structured_data_and_prompt (analysis_result : VisionDesc)
    (text_elements : List String) : ExtractedData × String × String :=
  let diagram_type := analysis_result.vtype
  let numbers := text_elements.flatMap (fun t => (findNumTokens t.data).map parseFloatTok)
  let labels := text_elements.filterMap (fun t =>
    let non_numeric := pyStrip (⟨removeNumTokens t.data⟩ : String)
    if non_numeric ≠ "" ∧ 1 < non_numeric.data.length then some non_numeric else none)
  if diagram_type = "chart" then
    (ExtractedData.chartData (numbers.take 10) (labels.take 10) text_elements,
     "Based on the extracted chart data, recreate this chart using appropriate visualization:\n\nData Points: "
       ++ (if numbers ≠ [] then pyListReprF (numbers.take 10) else "No numerical data extracted")
       ++ "\nLabels: "
       ++ (if labels ≠ [] then pyListReprS (labels.take 10) else "No labels extracted")
       ++ "\nChart Elements: " ++ commaJoin (text_elements.take 5)
       ++ "\n\nPlease create a chart representation using one of these formats:\n1. Mermaid chart syntax\n2. ASCII table with the data\n3. Chart.js configuration\n4. Python matplotlib code\n\nChoose the most appropriate format based on the data structure.",
     "chart.js")
  else if diagram_type = "architecture" then
    let comps := labels.filter (fun l => 2 < l.data.length)
    let servs := text_elements.filter (fun t =>
      (["service", "api", "app", "database"] : List String).any
        (fun k => strContains (pyLower t) k))
    (ExtractedData.architectureData comps servs,
     "Based on the extracted architecture diagram data, recreate this system architecture:\n\nComponents: "
       ++ pyListReprS comps ++ "\nServices: " ++ pyListReprS servs
       ++ "\n\nPlease create an architecture diagram using Mermaid syntax that shows:\n1. The main components and their relationships\n2. Data flow between services\n3. External dependencies if any\n\nUse Mermaid graph syntax with appropriate node shapes for different component types.",
     "mermaid")
  else if diagram_type = "flowchart" then
    let dps := text_elements.filter (fun t =>
      strContains t "?" ||
        (["if", "then", "else", "decision"] : List String).any
          (fun k => strContains (pyLower t) k))
    let procs := text_elements.filter (fun t => !(t ∈ dps))
    (ExtractedData.flowchartData text_elements dps procs,
     "Based on the extracted flowchart data, recreate this process flow:\n\nSteps: "
       ++ pyListReprS text_elements ++ "\nDecision Points: " ++ pyListReprS dps
       ++ "\nProcesses: " ++ pyListReprS procs
       ++ "\n\nPlease create a flowchart using Mermaid syntax that shows:\n1. The sequence of steps\n2. Decision points with yes/no branches\n3. Process boxes and connectors\n\nUse Mermaid flowchart syntax with appropriate shapes for different element types.",
     "mermaid")
  else
    (ExtractedData.genericData text_elements numbers labels,
     "Based on the extracted diagram data, recreate this diagram:\n\nText Elements: "
       ++ pyListReprS text_elements ++ "\nNumerical Data: "
       ++ (if numbers ≠ [] then pyListReprF numbers else "None")
       ++ "\nLabels: " ++ (if labels ≠ [] then pyListReprS labels else "None")
       ++ "\n\nPlease analyze the content and create an appropriate diagram using:\n1. Mermaid syntax if it"
       ++ sq
       ++ "s a structured diagram\n2. ASCII art for simple layouts\n3. Table format if it contains tabular data\n\nChoose the format that best represents the original diagram structure.",
     "mermaid")

/-- Embedding of `analyze_with_context_data` (lines 1815-1875): regex-extract
positive numbers and label runs from the surrounding text, synthesize a chart
description and elements, attach structured data, and report confidence 0.8. -/
def analyze_with_context_data (surrounding_text : String) : VisionDesc :=
  let context_text := surrounding_text
  let numbers := contextNumbers context_text
  let labels := contextLabels context_text
  let chart_type :=
    if (["measuring", "ocean", "color", "light"] : List String).any
        (fun k => strContains (pyLower context_text) k) then "chart"
    else if (["led", "value", "transmitted"] : List String).any
        (fun k => strContains (pyLower context_text) k) then "chart"
    else "chart"
  let description := "Chart showing data related to " ++ commaJoin (labels.take 3)
    ++ " with values including " ++ commaJoin ((numbers.take 5).map pyFloatStr)
  let text_elements := labels ++ (numbers.take 5).map pyFloatStr
  let analysis_result : VisionDesc :=
    { description := description
      vtype := chart_type
      elements := (text_elements.take 10).map (fun e => { etype := "text", content := e })
      confidence := 4/5
      mermaid_code := ""
      text_representation :=
        if 200 < context_text.data.length then
          (⟨context_text.data.take 200⟩ : String) ++ "..."
        else context_text }
  let structured := generate_structured_data_and_prompt analysis_result text_elements
  { analysis_result with
      extracted_data := some structured.1
      recreation_prompt := some structured.2.1
      suggested_format := some structured.2.2 }

/-- One text-carrying sub-element of a figure (the objects iterated by
`extract_diagram_text_elements`); the `str()` fallback for objects without a
text attribute is carried by the `text` field. -/
structure FigText where
  text : String := ""
  bbox : Option BBox := none
deriving DecidableEq

/-- A canonical figure.  `Option` fields model `hasattr` probing: `none` means
the attribute is absent.  `image_data` carries the outcome of
`extract_image_data_from_figure` (lines 1383-1445), whose byte-level probes
(files, PIL objects, the parent document) are external; `base64_data`
likewise carries the outcome of the byte-level probes of
`extract_base64_image_data` (lines 1330-1381). -/
structure Figure where
  page_number : Option Int := none
  caption : Option String := none
  alt_text : Option String := none
  surrounding_text : Option String := none
  text : Option String := none
  text_elements : Option (List FigText) := none
  bbox : Option BBox := none
  image_data : Option (List Nat) := none
  base64_data : Option String := none
deriving DecidableEq

/-- The argument fields consulted by the diagram-extraction loop. -/
structure Args where
  enable_remote_services : Bool := false
  vision_mode : String := "standard"
deriving DecidableEq

/-- Embedding of `extract_bounding_box` (lines 1055-1070): the figure's box or
all zeros. -/
def extract_bounding_box (fig : Figure) : BBox := fig.bbox.getD {}

/-- Embedding of `extract_base64_image_data` (lines 1330-1381): the byte
probing and base64 encoding are external, so the figure carries the result. -/
def extract_base64_image_data (fig : Figure) : Option String := fig.base64_data

/-- Embedding of `classify_diagram_type` (lines 1211-1237). -/
def classify_diagram_type (fig : Figure) : String :=
  let t1 := match fig.caption with
    | some c => if c ≠ "" then pyLower c else ""
    | none => ""
  let text_content := match fig.alt_text with
    | some a => if a ≠ "" then t1 ++ " " ++ pyLower a else t1
    | none => t1
  if (["flowchart", "flow chart", "process", "workflow"] : List String).any
      (fun k => strContains text_content k) then "flowchart"
  else if (["chart", "graph", "plot"] : List String).any
      (fun k => strContains text_content k) then "chart"
  else if (["diagram", "schematic", "architecture"] : List String).any
      (fun k => strContains text_content k) then "diagram"
  else if (["table", "matrix"] : List String).any
      (fun k => strContains text_content k) then "table"
  else if (["map", "layout", "plan"] : List String).any
      (fun k => strContains text_content k) then "map"
  else "unknown"

/-- Embedding of `extract_diagram_text_elements` (lines 2092-2119). -/
def extract_diagram_text_elements (fig : Figure) : List TextElem :=
  (match fig.text with
   | some t => if t ≠ "" then [{ etype := "text", content := t, position := "unknown" }] else []
   | none => []) ++
  (match fig.text_elements with
   | some tes => tes.enum.map (fun p =>
      { etype := "text", content := p.2.text,
        position := "element_" ++ natDigits (p.1 + 1),
        bounding_box := p.2.bbox : TextElem })
   | none => [])

/-- One OCR result row, as consumed by `analyze_with_basic_vision`. -/
structure OcrItem where
  text : String := ""
  confidence : ℚ := 0
deriving DecidableEq

/-- Embedding of `analyze_with_basic_vision` (lines 1877-1960).  The OCR model
is external: `none` models an unavailable OCR import (the ImportError path of
line 1941), `some rows` the rows it returned.  With usable rows the result
gains text elements, a keyword-derived type, structured data and confidence
0.7; otherwise the 0.5-confidence base result stands. -/
def analyze_with_basic_vision (ocr : Option (List OcrItem)) : VisionDesc :=
  let base : VisionDesc :=
    { description := "Basic image analysis - diagram detected"
      vtype := "diagram"
      elements := []
      confidence := 1/2
      mermaid_code := ""
      text_representation := ""
      extracted_data := some .emptyData
      recreation_prompt := some ""
      suggested_format := some "mermaid" }
  match ocr with
  | none => base
  | some ocr_results =>
    if ocr_results = [] then base
    else
      let text_elements := ocr_results.filterMap (fun r =>
        if pyStrip r.text ≠ "" then
          some ({ etype := "text", content := pyStrip r.text, position := "ocr_detected",
                  confidence := r.confidence } : TextElem)
        else none)
      let description_parts := elementContents text_elements
      let r1 := { base with elements := text_elements }
      let r2 :=
        if description_parts ≠ [] then
          let text_content := pyLower (String.intercalate " " description_parts)
          let vtype :=
            if (["database", "service", "api", "app"] : List String).any
                (fun k => strContains text_content k) then "architecture"
            else if (["process", "flow", "step"] : List String).any
                (fun k => strContains text_content k) then "flowchart"
            else if (["chart", "graph", "data"] : List String).any
                (fun k => strContains text_content k) then "chart"
            else r1.vtype
          let r1' := { r1 with
            description := "Diagram containing text elements: "
              ++ commaJoin (description_parts.take 5)
            text_representation := String.intercalate "\n" description_parts
            vtype := vtype }
          let structured := generate_structured_data_and_prompt r1' description_parts
          { r1' with
              extracted_data := some structured.1
              recreation_prompt := some structured.2.1
              suggested_format := some structured.2.2 }
        else r1
      { r2 with confidence := 7/10 }

/-- Embedding of `generate_vlm_description` (lines 1239-1293).  When the
figure yields no image bytes, a synthetic one-pixel placeholder is substituted
(lines 1261-1267), so the function never returns `None` on the normal path.
The external/local model chain `analyze_with_vlm_pipeline` is an HTTP/model
call and is modelled by the `pipeline` oracle; the basic path is embedded. -/
def generate_vlm_description (args : Args) (pipeline : Figure → String → VisionDesc)
    (ocr : Figure → Option (List OcrItem)) (fig : Figure) : Option VisionDesc :=
  if args.vision_mode = "smoldocling" then some (pipeline fig "smoldocling")
  else if args.vision_mode = "advanced" ∧ args.enable_remote_services then
    some (pipeline fig "external")
  else some (analyze_with_basic_vision (ocr fig))

/-- The per-figure body of the loop of `extract_diagram_descriptions`
(lines 1150-1204). -/
def figureRecord (args : Args) (pipeline : Figure → String → VisionDesc)
    (ocr : Figure → Option (List OcrItem)) (i : Nat) (fig : Figure) : DiagramData :=
  let base : DiagramData :=
    { id := "diagram_" ++ natDigits (i + 1)
      dtype := "diagram"
      page_number := fig.page_number
      caption := fig.caption.getD ""
      description := ""
      diagram_type := "unknown"
      elements := []
      bounding_box := extract_bounding_box fig
      confidence := 0 }
  let base := match extract_base64_image_data fig with
    | some s => if s ≠ "" then { base with base64_data := some s } else base
    | none => base
  let base := { base with description :=
    match fig.alt_text with
    | some a =>
      if a ≠ "" then a
      else match fig.caption with
        | some c => if c ≠ "" then c else ""
        | none => ""
    | none =>
      match fig.caption with
      | some c => if c ≠ "" then c else ""
      | none => "" }
  let base := { base with diagram_type := classify_diagram_type fig }
  let vision : Option VisionDesc :=
    if args.enable_remote_services || args.vision_mode ≠ "standard" then
      generate_vlm_description args pipeline ocr fig
    else none
  let vision : Option VisionDesc :=
    match vision with
    | none =>
      match fig.surrounding_text with
      | some st => some (analyze_with_context_data st)
      | none => none
    | some v => some v
  let withV : DiagramData :=
    match vision with
    | some v =>
      { base with
          description := v.description
          diagram_type := v.vtype
          elements := v.elements
          confidence := v.confidence
          extracted_data := some (v.extracted_data.getD .emptyData)
          recreation_prompt := some (v.recreation_prompt.getD "")
          suggested_format := some (v.suggested_format.getD "mermaid") }
    | none => base
  if fig.text_elements.isSome ∨ fig.text.isSome then
    { withV with elements := withV.elements ++ extract_diagram_text_elements fig }
  else withV

/-- Embedding of `extract_diagram_descriptions` (lines 1072-1209), given the
figures collected from the upstream document object: every figure is processed
in order and yields exactly one appended record. -/
def extract_diagram_descriptions (args : Args) (pipeline : Figure → String → VisionDesc)
    (ocr : Figure → Option (List OcrItem)) (figs : List Figure) : List DiagramData :=
  figs.enum.map (fun p => figureRecord args pipeline ocr p.1 p.2)

/-- C2 counterexample: a figure with neither image bytes nor surrounding text
is not excluded — the extraction loop appends a default record (confidence
0.0, empty description) for it, so one figure yields one record, not zero. -/
theorem c2_counterexample :
    ({} : Figure).image_data = none ∧ ({} : Figure).surrounding_text = none ∧
    (extract_diagram_descriptions {} (fun _ _ => {}) (fun _ => none) [{}]).length = 1 ∧
    ¬ (extract_diagram_descriptions {} (fun _ _ => {}) (fun _ => none) [{}]).length = 0 ∧
    (figureRecord {} (fun _ _ => {}) (fun _ => none) 0 ({} : Figure)).id = "diagram_1" ∧
    (figureRecord {} (fun _ _ => {}) (fun _ => none) 0 ({} : Figure)).confidence = 0 ∧
    (figureRecord {} (fun _ _ => {}) (fun _ => none) 0 ({} : Figure)).description = "" := by
  refine ⟨rfl, rfl, rfl, by decide, rfl, rfl, rfl⟩

/-- C2 (amended): the extraction loop never skips a figure: it returns exactly
one record per input figure, in order, and a figure offering no analyzable
data still yields a default record at confidence 0.0 rather than being
dropped. -/
theorem c2_no_skip (args : Args) (pipeline : Figure → String → VisionDesc)
    (ocr : Figure → Option (List OcrItem)) (figs : List Figure) :
    (extract_diagram_descriptions args pipeline ocr figs).length = figs.length ∧
    (∀ i : Nat, (extract_diagram_descriptions args pipeline ocr figs)[i]? =
      (figs[i]?).map (figureRecord args pipeline ocr i)) ∧
    (args.enable_remote_services = false → args.vision_mode = "standard" →
      ∀ fig : Figure, fig.surrounding_text = none → fig.text = none →
      fig.text_elements = none →
      ∀ i : Nat, (figureRecord args pipeline ocr i fig).confidence = 0) := by
  refine ⟨by simp [extract_diagram_descriptions], ?_, ?_⟩
  · intro i
    simp only [extract_diagram_descriptions, List.getElem?_map, List.getElem?_enum]
    cases figs[i]? <;> rfl
  · intro h1 h2 fig hs ht hte i
    rcases hx : extract_base64_image_data fig with _ | s
    · simp [figureRecord, h1, h2, hs, ht, hte, hx]
    · by_cases hse : s = ""
      · simp [figureRecord, h1, h2, hs, ht, hte, hx, hse]
      · simp [figureRecord, h1, h2, hs, ht, hte, hx, hse]

/-- Witness for `c2_no_skip` at the default arguments and an empty figure. -/
theorem c2_no_skip_witness :
    ({} : Args).enable_remote_services = false ∧ ({} : Args).vision_mode = "standard" ∧
    ({} : Figure).surrounding_text = none ∧
    (figureRecord {} (fun _ _ => {}) (fun _ => none) 0 ({} : Figure)).confidence = 0 :=
  ⟨rfl, rfl, rfl,
    (c2_no_skip {} (fun _ _ => {}) (fun _ => none) []).2.2 rfl rfl {} rfl rfl rfl 0⟩

/-- C4 counterexample: with remote services enabled (vision mode standard) a
figure with no image bytes but with surrounding text is analyzed through the
basic-vision path on a synthetic placeholder image — terminating at
confidence 0.5 with the basic-analysis description — and the text-context
strategy is never reached, refuting the claimed universal 0.8-confidence
context termination. -/
theorem c4_counterexample :
    ({ surrounding_text := some "Revenue grew to 150 million in Q3" } : Figure).image_data
      = none ∧
    (figureRecord { enable_remote_services := true, vision_mode := "standard" }
      (fun _ _ => {}) (fun _ => none) 0
      ({ surrounding_text := some "Revenue grew to 150 million in Q3" } : Figure)).confidence
      = 1/2 ∧
    (figureRecord { enable_remote_services := true, vision_mode := "standard" }
      (fun _ _ => {}) (fun _ => none) 0
      ({ surrounding_text := some "Revenue grew to 150 million in Q3" } : Figure)).description
      = "Basic image analysis - diagram detected" ∧
    ((1 : ℚ)/2) ≠ 4/5 := by
  refine ⟨rfl, rfl, rfl, by norm_num⟩

/-- C4 (amended): when the vision path is disabled (remote services off and
vision mode standard), every figure carrying surrounding text terminates in
SUCCESS via the text-context strategy: its record takes the context result's
description and reports confidence 0.8, never a failure. -/
theorem c4_context_fallback (args : Args) (pipeline : Figure → String → VisionDesc)
    (ocr : Figure → Option (List OcrItem)) (fig : Figure) (i : Nat) (st : String)
    (h1 : args.enable_remote_services = false) (h2 : args.vision_mode = "standard")
    (hs : fig.surrounding_text = some st) :
    (figureRecord args pipeline ocr i fig).confidence = 4/5 ∧
    (figureRecord args pipeline ocr i fig).description =
      (analyze_with_context_data st).description ∧
    (analyze_with_context_data st).confidence = 4/5 := by
  refine ⟨?_, ?_, rfl⟩ <;>
    · simp only [figureRecord, h1, h2, hs]
      split <;> rfl

/-- Witness for `c4_context_fallback` at the scenario's surrounding text. -/
theorem c4_context_fallback_witness :
    ({} : Args).enable_remote_services = false ∧ ({} : Args).vision_mode = "standard" ∧
    ({ surrounding_text := some "Revenue grew to 150 million in Q3" } : Figure).surrounding_text
      = some "Revenue grew to 150 million in Q3" ∧
    (figureRecord {} (fun _ _ => {}) (fun _ => none) 0
      ({ surrounding_text := some "Revenue grew to 150 million in Q3" } : Figure)).confidence
      = 4/5 :=
  ⟨rfl, rfl, rfl,
    (c4_context_fallback {} (fun _ _ => {}) (fun _ => none)
      { surrounding_text := some "Revenue grew to 150 million in Q3" } 0
      "Revenue grew to 150 million in Q3" rfl rfl rfl).1⟩

end DocProc
